import Mathlib

set_option maxRecDepth 40000

/-!
Verification of the joyride-oracle price service.

This file shallowly embeds the TWAP calculator (`twap.rs`), the settlement
clock (`main.rs`), the feed-record decoder (`pyth.rs`), and the event wire
schema (`types.rs`) into Lean, and proves the specification's testable
properties about them.

Modelling conventions:
* Rust `f64` prices/confidences are modelled as exact rationals (`ℚ`); every
  arithmetic operation the verified code paths perform (sum, division,
  comparison, `min`) is exact on the values involved, so `ℚ` reproduces the
  branch structure of the source.
* Rust `i64` timestamps and durations are modelled as `ℤ` (the claims do not
  exercise wrap-around).
* `HashMap<String, V>` is modelled as an association list with unique keys;
  `entry`, `insert`, `remove` and `get` are embedded as list operations, and
  `iter_mut` as `List.map` over the entries.
* Fallible operations return `Option`/`Except`, mirroring `Option`/`Result`.
-/

/-- `types.rs`: a `TwapSample` — one recorded price point. -/
structure TwapSample where
  price : ℚ
  timestamp : ℤ
deriving DecidableEq, Repr

/-- `types.rs`: a `PriceUpdate` decoded from the upstream feed. -/
structure PriceUpdate where
  symbol : String
  price : ℚ
  confidence : ℚ
  publish_time : ℤ
  feed_id : String
deriving DecidableEq, Repr

/-- `types.rs`: a finalized `TwapResult`. -/
structure TwapResult where
  symbol : String
  twap_price : ℚ
  window_start : ℤ
  window_end : ℤ
  sample_count : ℕ
  coverage : ℚ
deriving DecidableEq, Repr

/-- `types.rs`: a rolling `TwapPreview`. -/
structure TwapPreview where
  symbol : String
  twap_price : ℚ
  sample_count : ℕ
  coverage : ℚ
  in_settlement_window : Bool
deriving DecidableEq, Repr

/-- `types.rs`: `SettlementInfo` — settlement timing, recomputed each tick. -/
structure SettlementInfo where
  next_settlement : ℤ
  twap_window_start : ℤ
  seconds_to_twap_window : ℤ
  seconds_to_settlement : ℤ
  in_twap_window : Bool
deriving DecidableEq, Repr

/-- `twap.rs`: the `TwapError` enum. -/
inductive TwapError where
  | NoSamples : TwapError
  | InsufficientCoverage (actual required : ℚ) : TwapError
deriving DecidableEq, Repr

/-- Association-list lookup, embedding `HashMap::get`. -/
def alistFind {α : Type} (k : String) : List (String × α) → Option α
  | [] => none
  | (k₂, v) :: rest => if k₂ = k then some v else alistFind k rest

/-- Association-list insert-or-modify, embedding `HashMap::entry`/`insert`:
the entry for `k` is replaced by `f (some old)`, or `f none` is appended. -/
def alistModify {α : Type} (k : String) (f : Option α → α) :
    List (String × α) → List (String × α)
  | [] => [(k, f none)]
  | (k₂, v) :: rest =>
    if k₂ = k then (k₂, f (some v)) :: rest else (k₂, v) :: alistModify k f rest

/-- Association-list removal, embedding `HashMap::remove`. -/
def alistErase {α : Type} (k : String) : List (String × α) → List (String × α)
  | [] => []
  | (k₂, v) :: rest => if k₂ = k then rest else (k₂, v) :: alistErase k rest

theorem alistFind_modify_self {α : Type} (k : String) (f : Option α → α) :
    ∀ m : List (String × α), alistFind k (alistModify k f m) = some (f (alistFind k m))
  | [] => by simp [alistFind, alistModify]
  | (k₂, v) :: rest => by
    by_cases h : k₂ = k <;>
      simp [alistFind, alistModify, h, alistFind_modify_self k f rest]

theorem alistFind_modify_other {α : Type} {k s : String} (f : Option α → α) (hne : s ≠ k) :
    ∀ m : List (String × α), alistFind s (alistModify k f m) = alistFind s m
  | [] => by
    have hks : ¬(k = s) := fun h => hne h.symm
    simp [alistFind, alistModify, hks]
  | (k₂, v) :: rest => by
    by_cases h : k₂ = k
    · have hks : ¬(k = s) := fun he => hne he.symm
      simp [alistFind, alistModify, h, hks]
    · simp only [alistFind, alistModify, if_neg h]
      by_cases h₂ : k₂ = s <;>
        simp [alistFind, h₂, alistFind_modify_other f hne rest]

theorem alistFind_eq_none_of_not_mem_keys {α : Type} {k : String} :
    ∀ {m : List (String × α)}, k ∉ m.map Prod.fst → alistFind k m = none
  | [], _ => rfl
  | (k₂, v) :: rest, h => by
    have hne : k₂ ≠ k := fun he => h (by simp [he])
    have htl : k ∉ rest.map Prod.fst := fun hm => h (by simp [hm])
    simp [alistFind, hne, alistFind_eq_none_of_not_mem_keys htl]

theorem alistFind_erase_self {α : Type} (k : String) :
    ∀ m : List (String × α), (m.map Prod.fst).Nodup →
      alistFind k (alistErase k m) = none
  | [], _ => rfl
  | (k₂, v) :: rest, h => by
    rw [List.map_cons, List.nodup_cons] at h
    by_cases hk : k₂ = k
    · subst hk
      simpa [alistErase] using alistFind_eq_none_of_not_mem_keys h.1
    · simp [alistErase, alistFind, hk, alistFind_erase_self k rest h.2]

/-- `twap.rs`: default 30-minute TWAP window. -/
def DEFAULT_TWAP_WINDOW_SECS : ℤ := 30 * 60

/-- `twap.rs`: default 1-second sampling interval. -/
def DEFAULT_SAMPLE_INTERVAL_SECS : ℤ := 1

/-- `twap.rs`: minimum coverage for a valid TWAP (`0.90`). -/
def MIN_COVERAGE : ℚ := 9 / 10

/-- `twap.rs`: the `TwapCalculator` state. -/
structure TwapCalculator where
  samples : List (String × List TwapSample)
  window_secs : ℤ
  sample_interval_secs : ℤ
  last_sample_time : List (String × ℤ)
deriving DecidableEq, Repr

/-- `TwapCalculator::new`. -/
def TwapCalculator.new : TwapCalculator :=
  ⟨[], DEFAULT_TWAP_WINDOW_SECS, DEFAULT_SAMPLE_INTERVAL_SECS, []⟩

/-- `TwapCalculator::with_window`. -/
def TwapCalculator.with_window (window_secs : ℤ) : TwapCalculator :=
  ⟨[], window_secs, DEFAULT_SAMPLE_INTERVAL_SECS, []⟩

/-- The state after the sample-storing tail of `TwapCalculator::record`
(everything below the early `return false`): push the sample onto the
symbol's `Vec` and update `last_sample_time`. -/
def recordedState (c : TwapCalculator) (update : PriceUpdate) : TwapCalculator :=
  { c with
    samples :=
      alistModify update.symbol
        (fun o => o.getD [] ++ [⟨update.price, update.publish_time⟩]) c.samples,
    last_sample_time :=
      alistModify update.symbol (fun _ => update.publish_time) c.last_sample_time }

/-- `TwapCalculator::record`: returns the `bool` result paired with the
state after the call (the Rust method mutates `self`). -/
def TwapCalculator.record (c : TwapCalculator) (update : PriceUpdate) :
    Bool × TwapCalculator :=
  match alistFind update.symbol c.last_sample_time with
  | some last_time =>
    if update.publish_time - last_time < c.sample_interval_secs then
      (false, c)
    else
      (true, recordedState c update)
  | none => (true, recordedState c update)

/-- `TwapCalculator::sample_count`. -/
def TwapCalculator.sample_count (c : TwapCalculator) (symbol : String) : ℕ :=
  ((alistFind symbol c.samples).map List.length).getD 0

/-- `TwapCalculator::expected_samples` (`i64` division truncates toward 0). -/
def TwapCalculator.expected_samples (c : TwapCalculator) : ℤ :=
  Int.tdiv c.window_secs c.sample_interval_secs

/-- The in-window filter of `calculate`/`calculate_preview`:
`s.timestamp >= window_start && s.timestamp <= window_end`. -/
def inWindow (window_start window_end : ℤ) (s : TwapSample) : Bool :=
  decide (window_start ≤ s.timestamp) && decide (s.timestamp ≤ window_end)

/-- `TwapCalculator::calculate`. -/
def TwapCalculator.calculate (c : TwapCalculator) (symbol : String)
    (window_end : ℤ) : Option TwapResult :=
  match alistFind symbol c.samples with
  | none => none
  | some samples =>
    let window_start := window_end - c.window_secs
    let window_samples := samples.filter (inWindow window_start window_end)
    if window_samples.isEmpty then
      none
    else
      let sum := (window_samples.map TwapSample.price).sum
      let twap_price := sum / (window_samples.length : ℚ)
      let coverage := (window_samples.length : ℚ) / (c.expected_samples : ℚ)
      some ⟨symbol, twap_price, window_start, window_end,
        window_samples.length, coverage⟩

/-- `TwapCalculator::calculate_validated`. -/
def TwapCalculator.calculate_validated (c : TwapCalculator) (symbol : String)
    (window_end : ℤ) : Except TwapError TwapResult :=
  match c.calculate symbol window_end with
  | none => .error .NoSamples
  | some result =>
    if result.coverage < MIN_COVERAGE then
      .error (.InsufficientCoverage result.coverage MIN_COVERAGE)
    else
      .ok result

/-- `TwapCalculator::calculate_preview`. -/
def TwapCalculator.calculate_preview (c : TwapCalculator) (symbol : String)
    (current_time : ℤ) (in_settlement_window : Bool) : Option TwapPreview :=
  match alistFind symbol c.samples with
  | none => none
  | some samples =>
    let window_start := current_time - c.window_secs
    let window_samples := samples.filter (inWindow window_start current_time)
    if window_samples.isEmpty then
      some ⟨symbol, 0, 0, 0, in_settlement_window⟩
    else
      let sum := (window_samples.map TwapSample.price).sum
      let twap_price := sum / (window_samples.length : ℚ)
      let coverage :=
        min ((window_samples.length : ℚ) / (c.expected_samples : ℚ)) 1
      some ⟨symbol, twap_price, window_samples.length, coverage,
        in_settlement_window⟩

/-- `TwapCalculator::clear`. -/
def TwapCalculator.clear (c : TwapCalculator) (symbol : String) : TwapCalculator :=
  { c with
    samples := alistErase symbol c.samples,
    last_sample_time := alistErase symbol c.last_sample_time }

/-- `TwapCalculator::prune` (`retain` keeps `s.timestamp >= before_timestamp`). -/
def TwapCalculator.prune (c : TwapCalculator) (before_timestamp : ℤ) : TwapCalculator :=
  { c with
    samples :=
      c.samples.map
        (fun e => (e.1, e.2.filter (fun s => decide (before_timestamp ≤ s.timestamp)))) }

example :
    ((TwapCalculator.new.record ⟨"SOL", 200, 1/100, 1000, "0x123"⟩).2.record
      ⟨"SOL", 201, 1/100, 1000, "0x123"⟩).1 = false := by
  with_unfolding_all decide

/-- `main.rs`: `TWAP_WINDOW_SECS` (30 minutes). -/
def TWAP_WINDOW_SECS : ℤ := 30 * 60

/-- `main.rs`: `ROUND_EPOCH_SECS` (2025-01-01T08:00:00Z). -/
def ROUND_EPOCH_SECS : ℤ := 1735718400

/-- `main.rs`: `round_duration_secs` for a configured whole number of hours. -/
def round_duration_secs (hours : ℤ) : ℤ := hours * 3600

/-- `main.rs`: `calculate_settlement_info`, generalized over the epoch anchor
(the source fixes `epoch = ROUND_EPOCH_SECS`) and the round duration (the
source reads it from the environment). Rust `div_euclid` is `Int.ediv`,
which is `/` on `ℤ`. -/
def calculate_settlement_info (epoch duration now_secs : ℤ) : SettlementInfo :=
  let elapsed := now_secs - epoch
  let rounds_elapsed := elapsed / duration
  let next_settlement := epoch + (rounds_elapsed + 1) * duration
  let seconds_to_settlement := next_settlement - now_secs
  let twap_window_start := next_settlement - min TWAP_WINDOW_SECS duration
  let seconds_to_twap_window := max (twap_window_start - now_secs) 0
  let in_twap_window :=
    decide (seconds_to_settlement ≤ min TWAP_WINDOW_SECS duration) &&
      decide (0 < seconds_to_settlement)
  ⟨next_settlement, twap_window_start, seconds_to_twap_window,
    seconds_to_settlement, in_twap_window⟩

/-- `types.rs`: the `Asset` enum. -/
inductive Asset where
  | Sol : Asset
  | Btc : Asset
  | Eth : Asset
deriving DecidableEq, Repr

/-- `Asset::feed_id`. -/
def Asset.feed_id : Asset → String
  | .Sol => "0xef0d8b6fda2ceba41da15d4095d1da392a0d2f8ed0c6c7bc0f4cfac8c280b56d"
  | .Btc => "0xe62df6c8b4a85fe1a67db44dc12de5db330f7ac66b72dc658afedf0f4a415b43"
  | .Eth => "0xff61491a931112ddf1bd8147cd1b641375f79f5825126d665480874634fd0ace"

/-- `Asset::symbol`. -/
def Asset.symbol : Asset → String
  | .Sol => "SOL"
  | .Btc => "BTC"
  | .Eth => "ETH"

/-- `Asset::from_feed_id`. -/
def Asset.from_feed_id (feed_id : String) : Option Asset :=
  if feed_id = Asset.Sol.feed_id then some .Sol
  else if feed_id = Asset.Btc.feed_id then some .Btc
  else if feed_id = Asset.Eth.feed_id then some .Eth
  else none

/-- `pyth.rs`: the `PriceData` JSON shape (mantissas arrive as strings). -/
structure PriceData where
  price : String
  conf : String
  expo : ℤ
  publish_time : ℤ
deriving DecidableEq, Repr

/-- `pyth.rs`: `ParsedPrice` (the dead `ema_price` field is kept). -/
structure ParsedPrice where
  id : String
  price : PriceData
  ema_price : PriceData
deriving DecidableEq, Repr

/-- Digit loop of Rust `i64::from_str`: consumes decimal digits only. -/
def parseNatDigitsAux : List Char → ℕ → Option ℕ
  | [], acc => some acc
  | c :: rest, acc =>
    if c.isDigit then parseNatDigitsAux rest (acc * 10 + (c.toNat - 48)) else none

/-- Model of Rust `i64::from_str` (optional sign, then one or more decimal
digits, nothing else; the `i64` range check is not modelled — the claims do
not exercise it). -/
def parseIntStr (s : String) : Option ℤ :=
  match s.data with
  | [] => none
  | '+' :: rest =>
    if rest = [] then none else (parseNatDigitsAux rest 0).map Int.ofNat
  | '-' :: rest =>
    if rest = [] then none else (parseNatDigitsAux rest 0).map (fun n => -(n : ℤ))
  | l => (parseNatDigitsAux l 0).map Int.ofNat

/-- Character-level embedding of `str::to_lowercase` (feed identifiers are
ASCII, where Rust and Lean lower-casing agree). -/
def lowerStr (s : String) : String := ⟨s.data.map Char.toLower⟩

/-- Embedding of `str::starts_with("0x")` (case-sensitive). -/
def startsWith0x (s : String) : Bool :=
  match s.data with
  | '0' :: 'x' :: _ => true
  | _ => false

/-- `pyth.rs`: the feed-id normalization at the top of `parse_price_update`. -/
def normalize_feed_id (id : String) : String :=
  if startsWith0x id then lowerStr id else "0x" ++ lowerStr id

/-- `pyth.rs`: `10f64.powi(expo)`, exactly, as a rational. -/
def pow10 (expo : ℤ) : ℚ :=
  if 0 ≤ expo then (10 : ℚ) ^ expo.toNat else ((10 : ℚ) ^ (-expo).toNat)⁻¹

/-- `pyth.rs`: `PythClient::parse_price_update`. -/
def parse_price_update (parsed : ParsedPrice) : Option PriceUpdate :=
  let feed_id := normalize_feed_id parsed.id
  match Asset.from_feed_id feed_id with
  | none => none
  | some asset =>
    match parseIntStr parsed.price.price, parseIntStr parsed.price.conf with
    | some price_raw, some conf_raw =>
      let multiplier := pow10 parsed.price.expo
      some ⟨asset.symbol, (price_raw : ℚ) * multiplier,
        (conf_raw : ℚ) * multiplier, parsed.price.publish_time, feed_id⟩
    | _, _ => none

/-- JSON values — the wire form produced by `serde_json`. Numbers are exact
rationals here, matching the `ℚ` model of `f64`. -/
inductive Json where
  | null : Json
  | bool (b : Bool) : Json
  | num (q : ℚ) : Json
  | str (s : String) : Json
  | arr (elems : List Json) : Json
  | obj (fields : List (String × Json)) : Json

/-- `types.rs`: the `OracleEvent` tagged union. -/
inductive OracleEvent where
  | Price (update : PriceUpdate) : OracleEvent
  | Twap (result : TwapResult) : OracleEvent
  | TwapPreview (preview : TwapPreview) : OracleEvent
  | Settlement (info : SettlementInfo) : OracleEvent
  | Connected : OracleEvent
  | Disconnected : OracleEvent
  | Error (message : String) : OracleEvent
deriving DecidableEq, Repr

def Json.asStr : Json → Option String
  | .str s => some s
  | _ => none

def Json.asBool : Json → Option Bool
  | .bool b => some b
  | _ => none

def Json.asQ : Json → Option ℚ
  | .num q => some q
  | _ => none

def Json.asInt : Json → Option ℤ
  | .num q => if q.den = 1 then some q.num else none
  | _ => none

def Json.asNat : Json → Option ℕ
  | .num q => if q.den = 1 ∧ 0 ≤ q.num then some q.num.toNat else none
  | _ => none

/-- serde field layout of `PriceUpdate` (declaration order). -/
def PriceUpdate.toJsonFields (u : PriceUpdate) : List (String × Json) :=
  [("symbol", .str u.symbol), ("price", .num u.price),
   ("confidence", .num u.confidence), ("publish_time", .num (u.publish_time : ℚ)),
   ("feed_id", .str u.feed_id)]

def PriceUpdate.fromJsonFields (fields : List (String × Json)) : Option PriceUpdate := do
  let symbol ← (alistFind "symbol" fields).bind Json.asStr
  let price ← (alistFind "price" fields).bind Json.asQ
  let confidence ← (alistFind "confidence" fields).bind Json.asQ
  let publish_time ← (alistFind "publish_time" fields).bind Json.asInt
  let feed_id ← (alistFind "feed_id" fields).bind Json.asStr
  some ⟨symbol, price, confidence, publish_time, feed_id⟩

/-- serde field layout of `TwapResult` (declaration order). -/
def TwapResult.toJsonFields (r : TwapResult) : List (String × Json) :=
  [("symbol", .str r.symbol), ("twap_price", .num r.twap_price),
   ("window_start", .num (r.window_start : ℚ)), ("window_end", .num (r.window_end : ℚ)),
   ("sample_count", .num (r.sample_count : ℚ)), ("coverage", .num r.coverage)]

def TwapResult.fromJsonFields (fields : List (String × Json)) : Option TwapResult := do
  let symbol ← (alistFind "symbol" fields).bind Json.asStr
  let twap_price ← (alistFind "twap_price" fields).bind Json.asQ
  let window_start ← (alistFind "window_start" fields).bind Json.asInt
  let window_end ← (alistFind "window_end" fields).bind Json.asInt
  let sample_count ← (alistFind "sample_count" fields).bind Json.asNat
  let coverage ← (alistFind "coverage" fields).bind Json.asQ
  some ⟨symbol, twap_price, window_start, window_end, sample_count, coverage⟩

/-- serde field layout of `TwapPreview` (declaration order). -/
def TwapPreview.toJsonFields (p : TwapPreview) : List (String × Json) :=
  [("symbol", .str p.symbol), ("twap_price", .num p.twap_price),
   ("sample_count", .num (p.sample_count : ℚ)), ("coverage", .num p.coverage),
   ("in_settlement_window", .bool p.in_settlement_window)]

def TwapPreview.fromJsonFields (fields : List (String × Json)) : Option TwapPreview := do
  let symbol ← (alistFind "symbol" fields).bind Json.asStr
  let twap_price ← (alistFind "twap_price" fields).bind Json.asQ
  let sample_count ← (alistFind "sample_count" fields).bind Json.asNat
  let coverage ← (alistFind "coverage" fields).bind Json.asQ
  let in_settlement_window ← (alistFind "in_settlement_window" fields).bind Json.asBool
  some ⟨symbol, twap_price, sample_count, coverage, in_settlement_window⟩

/-- serde field layout of `SettlementInfo` (declaration order). -/
def SettlementInfo.toJsonFields (i : SettlementInfo) : List (String × Json) :=
  [("next_settlement", .num (i.next_settlement : ℚ)),
   ("twap_window_start", .num (i.twap_window_start : ℚ)),
   ("seconds_to_twap_window", .num (i.seconds_to_twap_window : ℚ)),
   ("seconds_to_settlement", .num (i.seconds_to_settlement : ℚ)),
   ("in_twap_window", .bool i.in_twap_window)]

def SettlementInfo.fromJsonFields (fields : List (String × Json)) : Option SettlementInfo := do
  let next_settlement ← (alistFind "next_settlement" fields).bind Json.asInt
  let twap_window_start ← (alistFind "twap_window_start" fields).bind Json.asInt
  let seconds_to_twap_window ← (alistFind "seconds_to_twap_window" fields).bind Json.asInt
  let seconds_to_settlement ← (alistFind "seconds_to_settlement" fields).bind Json.asInt
  let in_twap_window ← (alistFind "in_twap_window" fields).bind Json.asBool
  some ⟨next_settlement, twap_window_start, seconds_to_twap_window,
    seconds_to_settlement, in_twap_window⟩

/-- The serde `snake_case` tag of each `OracleEvent` variant. -/
def OracleEvent.tag : OracleEvent → String
  | .Price _ => "price"
  | .Twap _ => "twap"
  | .TwapPreview _ => "twap_preview"
  | .Settlement _ => "settlement"
  | .Connected => "connected"
  | .Disconnected => "disconnected"
  | .Error _ => "error"

/-- serde internally-tagged serialization of `OracleEvent`
(`#[serde(tag = "type", rename_all = "snake_case")]`): one JSON object
holding the `type` tag followed by the variant's own fields. -/
def OracleEvent.toJson : OracleEvent → Json
  | .Price u => .obj (("type", .str "price") :: u.toJsonFields)
  | .Twap r => .obj (("type", .str "twap") :: r.toJsonFields)
  | .TwapPreview p => .obj (("type", .str "twap_preview") :: p.toJsonFields)
  | .Settlement i => .obj (("type", .str "settlement") :: i.toJsonFields)
  | .Connected => .obj [("type", .str "connected")]
  | .Disconnected => .obj [("type", .str "disconnected")]
  | .Error m => .obj [("type", .str "error"), ("message", .str m)]

/-- serde internally-tagged deserialization of `OracleEvent`: dispatch on the
`type` field, then read the variant's fields from the same object. -/
def OracleEvent.fromJson (j : Json) : Option OracleEvent :=
  match j with
  | .obj fields =>
    match (alistFind "type" fields).bind Json.asStr with
    | none => none
    | some tag =>
      if tag = "price" then (PriceUpdate.fromJsonFields fields).map OracleEvent.Price
      else if tag = "twap" then (TwapResult.fromJsonFields fields).map OracleEvent.Twap
      else if tag = "twap_preview" then
        (TwapPreview.fromJsonFields fields).map OracleEvent.TwapPreview
      else if tag = "settlement" then
        (SettlementInfo.fromJsonFields fields).map OracleEvent.Settlement
      else if tag = "connected" then some OracleEvent.Connected
      else if tag = "disconnected" then some OracleEvent.Disconnected
      else if tag = "error" then
        ((alistFind "message" fields).bind Json.asStr).map OracleEvent.Error
      else none
  | _ => none

/-- The `type` discriminator of a serialized event object. -/
def Json.typeTag : Json → Option Json
  | .obj fields => alistFind "type" fields
  | _ => none

/-- Shared evaluation lemma: `record` with no dedup entry accepts. -/
theorem record_of_no_entry {c : TwapCalculator} {u : PriceUpdate}
    (h : alistFind u.symbol c.last_sample_time = none) :
    c.record u = (true, recordedState c u) := by
  simp [TwapCalculator.record, h]

/-- Shared evaluation lemma: `record` past the sample interval accepts. -/
theorem record_of_entry_ge {c : TwapCalculator} {u : PriceUpdate} {last : ℤ}
    (h : alistFind u.symbol c.last_sample_time = some last)
    (hge : c.sample_interval_secs ≤ u.publish_time - last) :
    c.record u = (true, recordedState c u) := by
  simp [TwapCalculator.record, h, not_lt.mpr hge]

/-- Shared evaluation lemma: `record` inside the sample interval rejects
without any state change. -/
theorem record_of_entry_lt {c : TwapCalculator} {u : PriceUpdate} {last : ℤ}
    (h : alistFind u.symbol c.last_sample_time = some last)
    (hlt : u.publish_time - last < c.sample_interval_secs) :
    c.record u = (false, c) := by
  simp [TwapCalculator.record, h, hlt]

theorem alistFind_map_value {α β : Type} (g : α → β) (k : String) :
    ∀ m : List (String × α),
      alistFind k (m.map (fun e => (e.1, g e.2))) = (alistFind k m).map g
  | [] => rfl
  | (k₂, v) :: rest => by
    by_cases h : k₂ = k <;> simp [alistFind, h, alistFind_map_value g k rest]

/-- The samples of `symbol` that lie in the inclusive window
`[window_end - window_secs, window_end]` — the list `calculate` and
`calculate_preview` average over. -/
def windowSamples (c : TwapCalculator) (symbol : String) (window_end : ℤ) :
    List TwapSample :=
  ((alistFind symbol c.samples).getD []).filter
    (inWindow (window_end - c.window_secs) window_end)

/-- The unweighted arithmetic mean of a sample list's prices. -/
def meanPrices (l : List TwapSample) : ℚ :=
  (l.map TwapSample.price).sum / (l.length : ℚ)

/-- Test-style helper: drive a sequence of updates through `record`. -/
def recordAll (c : TwapCalculator) (updates : List PriceUpdate) : TwapCalculator :=
  updates.foldl (fun acc u => (acc.record u).2) c

/-- Test-style helper mirroring `make_update` from the `twap.rs` tests. -/
def mkUpdate (symbol : String) (price : ℚ) (timestamp : ℤ) : PriceUpdate :=
  ⟨symbol, price, 1 / 100, timestamp, "0x123"⟩

/-- C4: `record(update)` returns `true` and appends exactly one sample
`{price = update.price, timestamp = update.publish_time}` to `update.symbol`'s
sequence (leaving every other symbol's sequence untouched) precisely when the
symbol has no previously accepted sample (no dedup entry) or `publish_time`
is at least `sample_interval_secs` after the last accepted timestamp;
otherwise it returns `false` and leaves the entire calculator state
unchanged. -/
theorem record_spec (c : TwapCalculator) (u : PriceUpdate) :
    (alistFind u.symbol c.last_sample_time = none →
      (c.record u).1 = true ∧
      alistFind u.symbol (c.record u).2.samples =
        some ((alistFind u.symbol c.samples).getD [] ++ [⟨u.price, u.publish_time⟩]) ∧
      (∀ s, s ≠ u.symbol → alistFind s (c.record u).2.samples = alistFind s c.samples)) ∧
    (∀ last, alistFind u.symbol c.last_sample_time = some last →
      (c.sample_interval_secs ≤ u.publish_time - last →
        (c.record u).1 = true ∧
        alistFind u.symbol (c.record u).2.samples =
          some ((alistFind u.symbol c.samples).getD [] ++ [⟨u.price, u.publish_time⟩]) ∧
        (∀ s, s ≠ u.symbol → alistFind s (c.record u).2.samples = alistFind s c.samples)) ∧
      (u.publish_time - last < c.sample_interval_secs →
        c.record u = (false, c))) := by
  constructor
  · intro h
    rw [record_of_no_entry h]
    refine ⟨rfl, ?_, ?_⟩
    · simpa [recordedState] using
        alistFind_modify_self u.symbol
          (fun o => o.getD [] ++ [⟨u.price, u.publish_time⟩]) c.samples
    · intro s hs
      simpa [recordedState] using
        alistFind_modify_other
          (fun o => o.getD [] ++ [⟨u.price, u.publish_time⟩]) hs c.samples
  · intro last hl
    constructor
    · intro hge
      rw [record_of_entry_ge hl hge]
      refine ⟨rfl, ?_, ?_⟩
      · simpa [recordedState] using
          alistFind_modify_self u.symbol
            (fun o => o.getD [] ++ [⟨u.price, u.publish_time⟩]) c.samples
      · intro s hs
        simpa [recordedState] using
          alistFind_modify_other
            (fun o => o.getD [] ++ [⟨u.price, u.publish_time⟩]) hs c.samples
    · intro hlt
      exact record_of_entry_lt hl hlt

def c4_u1 : PriceUpdate := mkUpdate "SOL" 200 1000

def c4_u2 : PriceUpdate := mkUpdate "SOL" (401 / 2) 1000

def c4_c1 : TwapCalculator := (TwapCalculator.new.record c4_u1).2

/-- C4 witness: with the default 1-second interval, a second `record` for the
same symbol at the same timestamp is rejected and only one sample is kept. -/
theorem record_spec_witness :
    (TwapCalculator.new.record c4_u1).1 = true ∧
    c4_c1.record c4_u2 = (false, c4_c1) ∧
    c4_c1.sample_count "SOL" = 1 := by
  refine ⟨by with_unfolding_all decide, ?_, by with_unfolding_all decide⟩
  exact ((record_spec c4_c1 c4_u2).2 1000 (by with_unfolding_all decide)).2
    (by with_unfolding_all decide)

/-- C7: for every cutoff and state, `prune(cutoff)` replaces each symbol's
sequence by the subsequence of samples with `timestamp ≥ cutoff`, in order —
i.e. it removes exactly the samples with `timestamp < cutoff` and leaves the
rest untouched; it is idempotent, and on an empty store it is a no-op. -/
theorem prune_spec (c : TwapCalculator) (cutoff : ℤ) :
    (∀ symbol, alistFind symbol (c.prune cutoff).samples =
      (alistFind symbol c.samples).map
        (fun l => l.filter (fun s => decide (cutoff ≤ s.timestamp)))) ∧
    (c.prune cutoff).prune cutoff = c.prune cutoff ∧
    (c.samples = [] → c.prune cutoff = c) := by
  refine ⟨?_, ?_, ?_⟩
  · intro symbol
    simpa [TwapCalculator.prune] using
      alistFind_map_value
        (fun l => l.filter (fun s => decide (cutoff ≤ s.timestamp))) symbol c.samples
  · have hf : ∀ e : String × List TwapSample,
        ((e.1, e.2.filter (fun s => decide (cutoff ≤ s.timestamp))).1,
          (e.1, e.2.filter (fun s => decide (cutoff ≤ s.timestamp))).2.filter
            (fun s => decide (cutoff ≤ s.timestamp))) =
        (e.1, e.2.filter (fun s => decide (cutoff ≤ s.timestamp))) := by
      intro e
      simp [List.filter_filter]
    simp only [TwapCalculator.prune, List.map_map]
    congr 1
    exact List.map_congr_left (fun e _ => hf e)
  · intro h
    cases c with
    | mk samples w i l =>
      simp only at h
      simp [TwapCalculator.prune, h]

def c7_c : TwapCalculator :=
  ⟨[("SOL", [⟨200, 1000⟩, ⟨201, 1050⟩])], 1800, 1, [("SOL", 1050)]⟩

/-- C7 witness: pruning at 1050 keeps exactly the sample at 1050, and pruning
an empty calculator changes nothing. -/
theorem prune_spec_witness :
    alistFind "SOL" (c7_c.prune 1050).samples = some [⟨201, 1050⟩] ∧
    TwapCalculator.new.prune 99 = TwapCalculator.new := by
  constructor
  · rw [(prune_spec c7_c 1050).1 "SOL"]
    with_unfolding_all decide
  · exact (prune_spec TwapCalculator.new 99).2.2 rfl

/-- C10: `prune` rewrites only the per-symbol sample sequences and leaves the
per-symbol last-accepted-timestamp (dedup) map unchanged; consequently, even
when `prune` has removed every sample a symbol had (`sample_count = 0`), a
new update for that symbol within `sample_interval_secs` of the last accepted
timestamp is still rejected with no state change; only `clear(symbol)`
removes the dedup entry. -/
theorem prune_frame_spec (c : TwapCalculator) (cutoff : ℤ) (u : PriceUpdate) (last : ℤ)
    (hl : alistFind u.symbol c.last_sample_time = some last)
    (hlt : u.publish_time - last < c.sample_interval_secs)
    (hall : ∀ s ∈ (alistFind u.symbol c.samples).getD [], s.timestamp < cutoff)
    (hnd : (c.last_sample_time.map Prod.fst).Nodup) :
    (c.prune cutoff).last_sample_time = c.last_sample_time ∧
    (c.prune cutoff).sample_count u.symbol = 0 ∧
    (c.prune cutoff).record u = (false, c.prune cutoff) ∧
    alistFind u.symbol (c.clear u.symbol).last_sample_time = none := by
  have hfind := alistFind_map_value
    (fun l => l.filter (fun s => decide (cutoff ≤ s.timestamp))) u.symbol c.samples
  refine ⟨rfl, ?_, ?_, ?_⟩
  · cases hs : alistFind u.symbol c.samples with
    | none =>
      simp [TwapCalculator.sample_count, TwapCalculator.prune, hfind, hs]
    | some l =>
      have hnil : l.filter (fun s => decide (cutoff ≤ s.timestamp)) = [] := by
        rw [List.filter_eq_nil_iff]
        intro s hs2
        simpa using not_le.mpr (hall s (by simp [hs, hs2]))
      simp [TwapCalculator.sample_count, TwapCalculator.prune, hfind, hs, hnil]
  · exact record_of_entry_lt (show alistFind u.symbol
      (c.prune cutoff).last_sample_time = some last from hl) hlt
  · simpa [TwapCalculator.clear] using
      alistFind_erase_self u.symbol c.last_sample_time hnd

def c10_c : TwapCalculator := (TwapCalculator.new.record (mkUpdate "SOL" 200 1000)).2

/-- C10 witness: record SOL at t=1000, prune everything at cutoff 2000; the
dedup map survives, `sample_count` is 0, and a new SOL update at t=1000 is
still rejected; `clear` drops the dedup entry. -/
theorem prune_frame_spec_witness :
    (c10_c.prune 2000).last_sample_time = c10_c.last_sample_time ∧
    (c10_c.prune 2000).sample_count "SOL" = 0 ∧
    (c10_c.prune 2000).record (mkUpdate "SOL" 201 1000) = (false, c10_c.prune 2000) ∧
    alistFind "SOL" (c10_c.clear "SOL").last_sample_time = none :=
  prune_frame_spec c10_c 2000 (mkUpdate "SOL" 201 1000) 1000
    (by with_unfolding_all decide) (by with_unfolding_all decide)
    (by with_unfolding_all decide) (by with_unfolding_all decide)

/-- C1: if at least one stored sample for the symbol lies in the inclusive
window `[window_end - window_secs, window_end]`, `calculate` returns a
`TwapResult` whose `twap_price` is the unweighted arithmetic mean of exactly
the in-window samples' prices, whose `sample_count` is their number, whose
`window_start` is `window_end - window_secs`, and whose `coverage` is
`sample_count / (window_secs / sample_interval_secs)`, unclipped; if the
symbol is unknown or no stored sample falls in the window, it returns
`none`. -/
theorem calculate_spec (c : TwapCalculator) (symbol : String) (window_end : ℤ) :
    (windowSamples c symbol window_end ≠ [] →
      c.calculate symbol window_end = some
        ⟨symbol, meanPrices (windowSamples c symbol window_end),
          window_end - c.window_secs, window_end,
          (windowSamples c symbol window_end).length,
          ((windowSamples c symbol window_end).length : ℚ) /
            (c.expected_samples : ℚ)⟩) ∧
    (windowSamples c symbol window_end = [] →
      c.calculate symbol window_end = none) := by
  cases hf : alistFind symbol c.samples with
  | none =>
    constructor
    · intro hne
      exact absurd (by simp [windowSamples, hf]) hne
    · intro _
      simp [TwapCalculator.calculate, hf]
  | some samples =>
    have hws : windowSamples c symbol window_end =
        samples.filter (inWindow (window_end - c.window_secs) window_end) := by
      simp [windowSamples, hf]
    constructor
    · intro hne
      rw [hws] at hne
      simp [TwapCalculator.calculate, hf, meanPrices, hws,
        List.isEmpty_iff, hne]
    · intro hnil
      rw [hws] at hnil
      simp [TwapCalculator.calculate, hf, List.isEmpty_iff, hnil]

def c1_calc : TwapCalculator :=
  recordAll (TwapCalculator.with_window 10)
    ((List.range 10).map
      (fun (i : ℕ) => mkUpdate "SOL" (200 + (i : ℚ)) (1000 + (i : ℤ))))

/-- C1 witness: ten samples at prices 200..209 on timestamps 1000..1009 with
a 10-second window give TWAP 204.5, 10 samples, coverage 1. -/
theorem calculate_spec_witness :
    c1_calc.calculate "SOL" 1009 = some ⟨"SOL", 409 / 2, 999, 1009, 10, 1⟩ := by
  rw [(calculate_spec c1_calc "SOL" 1009).1 (by with_unfolding_all decide)]
  with_unfolding_all decide

/-- C2 counterexample: the claim says `calculate_preview` never fails and on
a symbol with zero samples returns a zero-valued preview; but on a symbol
with no entry in the sample registry at all (here: a fresh calculator) the
source's `self.samples.get(symbol)?` makes it return `None`. -/
theorem calculate_preview_cex :
    TwapCalculator.new.calculate_preview "SOL" 1000 false = none := rfl

/-- C2 (amended): `calculate_preview` returns `none` when the symbol has no
entry in the sample registry; when an entry exists (even empty or fully
pruned), it returns a preview — zero-valued with the flag passed through if
no sample falls in the window, else the unweighted mean over
`[now - window_secs, now]` — and any returned preview has
`coverage ≤ 1` (clipped). -/
theorem calculate_preview_spec (c : TwapCalculator) (symbol : String)
    (now : ℤ) (flag : Bool) :
    (alistFind symbol c.samples = none →
      c.calculate_preview symbol now flag = none) ∧
    (alistFind symbol c.samples ≠ none →
      (windowSamples c symbol now = [] →
        c.calculate_preview symbol now flag = some ⟨symbol, 0, 0, 0, flag⟩) ∧
      (windowSamples c symbol now ≠ [] →
        c.calculate_preview symbol now flag = some
          ⟨symbol, meanPrices (windowSamples c symbol now),
            (windowSamples c symbol now).length,
            min (((windowSamples c symbol now).length : ℚ) /
              (c.expected_samples : ℚ)) 1, flag⟩)) ∧
    (∀ p, c.calculate_preview symbol now flag = some p → p.coverage ≤ 1) := by
  cases hf : alistFind symbol c.samples with
  | none =>
    refine ⟨fun _ => by simp [TwapCalculator.calculate_preview, hf],
      fun hne => absurd rfl hne, fun p hp => ?_⟩
    simp [TwapCalculator.calculate_preview, hf] at hp
  | some samples =>
    have hws : windowSamples c symbol now =
        samples.filter (inWindow (now - c.window_secs) now) := by
      simp [windowSamples, hf]
    refine ⟨fun h => Option.noConfusion h, fun _ => ⟨?_, ?_⟩, ?_⟩
    · intro hnil
      rw [hws] at hnil
      simp [TwapCalculator.calculate_preview, hf, List.isEmpty_iff, hnil]
    · intro hne
      rw [hws] at hne
      simp [TwapCalculator.calculate_preview, hf, meanPrices, hws,
        List.isEmpty_iff, hne]
    · intro p hp
      rw [TwapCalculator.calculate_preview] at hp
      simp only [hf] at hp
      by_cases hnil : (samples.filter (inWindow (now - c.window_secs) now)).isEmpty
      · simp only [hnil, if_pos] at hp
        cases hp
        norm_num
      · simp only [hnil, if_neg, Bool.false_eq_true, not_false_eq_true] at hp
        cases hp
        exact min_le_right _ 1

def c2_calc : TwapCalculator := (TwapCalculator.new.record (mkUpdate "SOL" 200 1000)).2

/-- C2 witness: a symbol whose only sample is far outside the window gets the
zero-valued preview with the flag passed through, and its coverage is ≤ 1. -/
theorem calculate_preview_spec_witness :
    c2_calc.calculate_preview "SOL" 100000 true = some ⟨"SOL", 0, 0, 0, true⟩ ∧
    (1 : ℚ) ≤ 1 := by
  refine ⟨?_, le_refl 1⟩
  exact ((calculate_preview_spec c2_calc "SOL" 100000 true).2.1
    (by with_unfolding_all decide)).1 (by with_unfolding_all decide)

/-- C3: `calculate_validated` fails with `NoSamples` exactly when `calculate`
is absent; fails with `InsufficientCoverage {actual, required = 0.90}` (with
`actual` the computed coverage) exactly when `calculate` yields coverage
below `MIN_COVERAGE = 0.90`; and otherwise returns the very `TwapResult`
that `calculate` returns. -/
theorem calculate_validated_spec (c : TwapCalculator) (symbol : String)
    (window_end : ℤ) :
    (c.calculate symbol window_end = none →
      c.calculate_validated symbol window_end = .error .NoSamples) ∧
    (∀ r, c.calculate symbol window_end = some r →
      (r.coverage < MIN_COVERAGE →
        c.calculate_validated symbol window_end =
          .error (.InsufficientCoverage r.coverage MIN_COVERAGE)) ∧
      (¬r.coverage < MIN_COVERAGE →
        c.calculate_validated symbol window_end = .ok r)) := by
  refine ⟨fun h => by simp [TwapCalculator.calculate_validated, h],
    fun r hr => ⟨fun hc => ?_, fun hc => ?_⟩⟩
  · simp [TwapCalculator.calculate_validated, hr, hc]
  · simp [TwapCalculator.calculate_validated, hr, hc]

def c3_calc : TwapCalculator :=
  recordAll (TwapCalculator.with_window 100)
    ((List.range 50).map (fun (i : ℕ) => mkUpdate "SOL" 200 (1000 + 2 * (i : ℤ))))

/-- C3 witness (the spec's example): window 100s, interval 1s, 50 samples
2 seconds apart at t = 1000, 1002, ..., 1098; validation at 1099 fails with
`InsufficientCoverage {actual = 0.5, required = 0.90}`. -/
theorem calculate_validated_spec_witness :
    c3_calc.calculate_validated "SOL" 1099 =
      .error (.InsufficientCoverage (1 / 2) (9 / 10)) :=
  ((calculate_validated_spec c3_calc "SOL" 1099).2
      ⟨"SOL", 200, 999, 1099, 50, 1 / 2⟩ (by with_unfolding_all decide)).1
    (by with_unfolding_all decide)

/-- C5 counterexample: the claim asserts `in_twap_window = false` at every
exact round boundary for every duration `D > 0`, but with `D = 1800`
(equal to `TWAP_WINDOW_SECS`) the boundary instant satisfies
`seconds_to_settlement = D ≤ min(TWAP_WINDOW_SECS, D)`, so the source
computes `in_twap_window = true` there. -/
theorem settlement_boundary_cex :
    ((0 : ℤ) + 0 * 1800 = 0) ∧ (0 : ℤ) < 1800 ∧ (0 : ℤ) ≤ 0 ∧
    (calculate_settlement_info 0 1800 0).seconds_to_settlement = 1800 ∧
    (calculate_settlement_info 0 1800 0).in_twap_window = true := by decide

/-- C5 (amended): at an exact round boundary `now = E + k*D` (`D > 0`,
`k ≥ 0`), `seconds_to_settlement = D` always; `in_twap_window = false` holds
exactly when `D` exceeds `TWAP_WINDOW_SECS` (so for every whole-hour round
duration), the boundary being half-open there; for `D ≤ TWAP_WINDOW_SECS`
the effective window is the whole round and the boundary instant is inside
the window. -/
theorem settlement_boundary_spec (E D k : ℤ) (hD : 0 < D) (hk : 0 ≤ k) :
    (calculate_settlement_info E D (E + k * D)).seconds_to_settlement = D ∧
    ((calculate_settlement_info E D (E + k * D)).in_twap_window = false ↔
      TWAP_WINDOW_SECS < D) := by
  have hne : D ≠ 0 := ne_of_gt hD
  have hdiv : (E + k * D - E) / D = k := by
    rw [show E + k * D - E = k * D by ring]
    exact Int.mul_ediv_cancel k hne
  have hsts : (calculate_settlement_info E D (E + k * D)).seconds_to_settlement = D := by
    show E + ((E + k * D - E) / D + 1) * D - (E + k * D) = D
    rw [hdiv]
    ring
  refine ⟨hsts, ?_⟩
  show (decide (E + ((E + k * D - E) / D + 1) * D - (E + k * D) ≤
      min TWAP_WINDOW_SECS D) &&
    decide (0 < E + ((E + k * D - E) / D + 1) * D - (E + k * D))) = false ↔
    TWAP_WINDOW_SECS < D
  have harg : E + ((E + k * D - E) / D + 1) * D - (E + k * D) = D := by
    rw [hdiv]
    ring
  rw [harg]
  simp only [TWAP_WINDOW_SECS, Bool.and_eq_false_iff, decide_eq_false_iff_not,
    not_le, not_lt]
  omega

/-- C5 witness: with the production epoch, a 24-hour round, and the third
boundary, the theorem instantiates to `seconds_to_settlement = 86400` and
`in_twap_window = false` (since `1800 < 86400`). -/
theorem settlement_boundary_spec_witness :
    (calculate_settlement_info 1735718400 86400
        (1735718400 + 3 * 86400)).seconds_to_settlement = 86400 ∧
    ((calculate_settlement_info 1735718400 86400
        (1735718400 + 3 * 86400)).in_twap_window = false ↔
      TWAP_WINDOW_SECS < 86400) :=
  settlement_boundary_spec 1735718400 86400 3 (by decide) (by decide)

/-- C6: for every `now` (also before the epoch) and every `D > 0`, the code's
`div_euclid` agrees with floor division toward negative infinity,
`next_settlement = E + (rounds_elapsed + 1) * D` is the unique round
boundary `E + m*D` with `now < E + m*D ≤ now + D`, and consequently
`seconds_to_settlement ∈ (0, D]`. -/
theorem settlement_next_spec (E D now : ℤ) (hD : 0 < D) :
    (calculate_settlement_info E D now).next_settlement =
      E + ((now - E).fdiv D + 1) * D ∧
    now < (calculate_settlement_info E D now).next_settlement ∧
    (calculate_settlement_info E D now).next_settlement ≤ now + D ∧
    (∀ m : ℤ, now < E + m * D → E + m * D ≤ now + D →
      E + m * D = (calculate_settlement_info E D now).next_settlement) ∧
    0 < (calculate_settlement_info E D now).seconds_to_settlement ∧
    (calculate_settlement_info E D now).seconds_to_settlement ≤ D := by
  have hne : D ≠ 0 := ne_of_gt hD
  have hqr := Int.ediv_add_emod (now - E) D
  have hr0 := Int.emod_nonneg (now - E) hne
  have hrD := Int.emod_lt_of_pos (now - E) hD
  have hnext : (calculate_settlement_info E D now).next_settlement =
      E + ((now - E) / D + 1) * D := rfl
  have hcomm : D * ((now - E) / D) = ((now - E) / D) * D := mul_comm _ _
  have hlt : now < E + ((now - E) / D + 1) * D := by
    have : ((now - E) / D + 1) * D = ((now - E) / D) * D + D := by ring
    rw [this]
    linarith [hqr, hrD, hcomm]
  have hle : E + ((now - E) / D + 1) * D ≤ now + D := by
    have : ((now - E) / D + 1) * D = ((now - E) / D) * D + D := by ring
    rw [this]
    linarith [hqr, hr0, hcomm]
  refine ⟨?_, hlt, hle, ?_, ?_, ?_⟩
  · rw [hnext, Int.fdiv_eq_ediv _ (le_of_lt hD)]
  · intro m hm1 hm2
    rw [hnext]
    have h1 : (m - ((now - E) / D + 1)) * D < 1 * D := by
      have hexp : (m - ((now - E) / D + 1)) * D =
          (E + m * D) - (E + ((now - E) / D + 1) * D) + 0 := by ring
      nlinarith [hm2, hlt]
    have h2 : (-1 : ℤ) * D < (m - ((now - E) / D + 1)) * D := by
      nlinarith [hm1, hle]
    have hm_lt : m - ((now - E) / D + 1) < 1 := lt_of_mul_lt_mul_right
      (by simpa using h1) (le_of_lt hD)
    have hm_gt : (-1 : ℤ) < m - ((now - E) / D + 1) := lt_of_mul_lt_mul_right
      (by simpa using h2) (le_of_lt hD)
    have : m = (now - E) / D + 1 := by omega
    rw [this]
  · show 0 < E + ((now - E) / D + 1) * D - now
    omega
  · show E + ((now - E) / D + 1) * D - now ≤ D
    omega

/-- C6 witness: epoch 0, round 10s, `now = -25` (before the epoch): floor
division gives `rounds_elapsed = -3`, `next_settlement = -20`, which indeed
lies in `(-25, -15]`, and `seconds_to_settlement = 5 ∈ (0, 10]`. -/
theorem settlement_next_spec_witness :
    (calculate_settlement_info 0 10 (-25)).next_settlement =
      0 + (((-25 : ℤ) - 0).fdiv 10 + 1) * 10 ∧
    (-25 : ℤ) < (calculate_settlement_info 0 10 (-25)).next_settlement ∧
    (calculate_settlement_info 0 10 (-25)).next_settlement ≤ (-25 : ℤ) + 10 ∧
    0 < (calculate_settlement_info 0 10 (-25)).seconds_to_settlement ∧
    (calculate_settlement_info 0 10 (-25)).seconds_to_settlement ≤ 10 := by
  have h := settlement_next_spec 0 10 (-25) (by decide)
  exact ⟨h.1, h.2.1, h.2.2.1, h.2.2.2.2.1, h.2.2.2.2.2⟩

def c8_bad : ParsedPrice :=
  ⟨"0XEF0D8B6FDA2CEBA41DA15D4095D1DA392A0D2F8ED0C6C7BC0F4CFAC8C280B56D",
    ⟨"100", "1", -8, 1000⟩, ⟨"100", "1", -8, 1000⟩⟩

/-- C8 counterexample: this record's identifier equals the SOL registry feed
id up to letter case (its lower-casing is exactly `Asset.Sol.feed_id`) and
its mantissas parse, so the claim says it yields a `PriceUpdate`; but the
source's case-sensitive `starts_with("0x")` misses the upper-case `"0X"`
prefix, prepends another `"0x"`, and the record is discarded (`none`). -/
theorem parse_price_update_cex :
    lowerStr c8_bad.id = Asset.Sol.feed_id ∧
    parseIntStr c8_bad.price.price = some 100 ∧
    parseIntStr c8_bad.price.conf = some 1 ∧
    parse_price_update c8_bad = none := by decide

/-- C8 (amended): identifiers are lower-cased and, unless they already carry
the exact lower-case prefix `"0x"`, prefixed with `"0x"` before matching the
registry — so identifiers matching a registry feed id up to letter case with
an optional *lower-case* `"0x"` prefix are accepted (an upper-case `"0X"`
prefix yields a doubled prefix and no match); a record whose normalized
identifier matches no registry entry or whose price or confidence mantissa
fails to parse yields `none` (silently discarded). -/
theorem parse_price_update_spec (pp : ParsedPrice) :
    (∀ asset, Asset.from_feed_id (normalize_feed_id pp.id) = some asset →
      ∀ p cf, parseIntStr pp.price.price = some p →
        parseIntStr pp.price.conf = some cf →
        parse_price_update pp = some
          ⟨asset.symbol, (p : ℚ) * pow10 pp.price.expo,
            (cf : ℚ) * pow10 pp.price.expo, pp.price.publish_time,
            normalize_feed_id pp.id⟩) ∧
    (Asset.from_feed_id (normalize_feed_id pp.id) = none →
      parse_price_update pp = none) ∧
    (parseIntStr pp.price.price = none → parse_price_update pp = none) ∧
    (parseIntStr pp.price.conf = none → parse_price_update pp = none) := by
  refine ⟨?_, ?_, ?_, ?_⟩
  · intro asset hA p cf hp hcf
    simp [parse_price_update, hA, hp, hcf]
  · intro hA
    simp [parse_price_update, hA]
  · intro hp
    cases hA : Asset.from_feed_id (normalize_feed_id pp.id) with
    | none => simp [parse_price_update, hA]
    | some a => simp [parse_price_update, hA, hp]
  · intro hcf
    cases hA : Asset.from_feed_id (normalize_feed_id pp.id) with
    | none => simp [parse_price_update, hA]
    | some a =>
      cases hp : parseIntStr pp.price.price with
      | none => simp [parse_price_update, hA, hp]
      | some p => simp [parse_price_update, hA, hp, hcf]

def c8_good : ParsedPrice :=
  ⟨"EF0D8B6FDA2CEBA41DA15D4095D1DA392A0D2F8ED0C6C7BC0F4CFAC8C280B56D",
    ⟨"12345678", "40", -8, 1700000000⟩, ⟨"12345678", "40", -8, 1700000000⟩⟩

/-- C8 witness: an upper-case, unprefixed SOL identifier is lower-cased,
prefixed with `"0x"`, matched, and decoded with `price = mantissa·10^expo`. -/
theorem parse_price_update_spec_witness :
    parse_price_update c8_good = some
      ⟨"SOL", (12345678 : ℚ) * pow10 (-8), (40 : ℚ) * pow10 (-8),
        1700000000, Asset.Sol.feed_id⟩ :=
  (parse_price_update_spec c8_good).1 .Sol (by decide) 12345678 40
    (by decide) (by decide)

/-- C9: every `OracleEvent` serializes to a JSON object tagged by a `type`
field holding the snake_case variant name, and deserializing that value
returns the original event (round trip). -/
theorem oracle_event_round_trip (e : OracleEvent) :
    OracleEvent.fromJson (OracleEvent.toJson e) = some e ∧
    (OracleEvent.toJson e).typeTag = some (.str e.tag) := by
  cases e with
  | Price u =>
    cases u
    constructor
    · simp [OracleEvent.toJson, OracleEvent.fromJson, PriceUpdate.toJsonFields,
        PriceUpdate.fromJsonFields, alistFind, Json.asStr, Json.asQ, Json.asInt,
        Option.bind, Rat.den_intCast, Rat.num_intCast]
    · simp [OracleEvent.toJson, Json.typeTag, OracleEvent.tag,
        PriceUpdate.toJsonFields, alistFind]
  | Twap r =>
    cases r
    constructor
    · simp [OracleEvent.toJson, OracleEvent.fromJson, TwapResult.toJsonFields,
        TwapResult.fromJsonFields, alistFind, Json.asStr, Json.asQ, Json.asInt,
        Json.asNat, Option.bind, Rat.den_intCast, Rat.num_intCast,
        Rat.den_natCast, Rat.num_natCast, Int.toNat_natCast]
    · simp [OracleEvent.toJson, Json.typeTag, OracleEvent.tag,
        TwapResult.toJsonFields, alistFind]
  | TwapPreview p =>
    cases p
    constructor
    · simp [OracleEvent.toJson, OracleEvent.fromJson, TwapPreview.toJsonFields,
        TwapPreview.fromJsonFields, alistFind, Json.asStr, Json.asQ, Json.asInt,
        Json.asNat, Json.asBool, Option.bind, Rat.den_intCast, Rat.num_intCast,
        Rat.den_natCast, Rat.num_natCast, Int.toNat_natCast]
    · simp [OracleEvent.toJson, Json.typeTag, OracleEvent.tag,
        TwapPreview.toJsonFields, alistFind]
  | Settlement i =>
    cases i
    constructor
    · simp [OracleEvent.toJson, OracleEvent.fromJson, SettlementInfo.toJsonFields,
        SettlementInfo.fromJsonFields, alistFind, Json.asStr, Json.asInt,
        Json.asBool, Option.bind, Rat.den_intCast, Rat.num_intCast]
    · simp [OracleEvent.toJson, Json.typeTag, OracleEvent.tag,
        SettlementInfo.toJsonFields, alistFind]
  | Connected =>
    constructor
    · simp [OracleEvent.toJson, OracleEvent.fromJson, alistFind, Json.asStr,
        Option.bind]
    · simp [OracleEvent.toJson, Json.typeTag, OracleEvent.tag, alistFind]
  | Disconnected =>
    constructor
    · simp [OracleEvent.toJson, OracleEvent.fromJson, alistFind, Json.asStr,
        Option.bind]
    · simp [OracleEvent.toJson, Json.typeTag, OracleEvent.tag, alistFind]
  | Error m =>
    constructor
    · simp [OracleEvent.toJson, OracleEvent.fromJson, alistFind, Json.asStr,
        Option.bind]
    · simp [OracleEvent.toJson, Json.typeTag, OracleEvent.tag, alistFind]
